import Mathlib

/-!
Verification of the camera-calibration and measurement service in
`src/webrtc/参考/main.py` (a FastAPI app wired to a `CameraCalibrator` and an
`ImageProcessor`).

The embedding models the shared mutable dictionary `calibration_params`
(main.py lines 27-33), the persisted calibration file
`calib_results/camera_calib_params.xml`, and the two stateful endpoints
`start_calibration` (lines 81-131) and `process_image` (lines 138-213) as
explicit state-passing functions on a `ServerState`.

The repository files `calibration.py` (class `CameraCalibrator`) and
`image_process.py` (class `ImageProcessor`) are not present in the sources;
their operations `calibrate`, `save_results`, `load_results` and
`process_image` are modelled from the specification (sections 4.1 and 4.2),
each marked `Modelled from the spec:` in its doc comment.  Numeric matrix
payloads are carried opaquely (no floating-point arithmetic is performed on
them by the code under verification).
-/

/-- A matrix payload (e.g. the 3×3 camera matrix), carried opaquely as rows
of integers; the service only stores and moves matrices, never computes on
them. -/
abbrev Mat := List (List Int)

/-- A region-of-interest rectangle `(x, y, w, h)`. -/
abbrev Roi := Int × Int × Int × Int

/-- One accepted corner observation: the ordered detected 2D pixel corners
of a calibration image. -/
abbrev Obs := List (Int × Int)

/-- The error taxonomy of the service.  `noCalibImages` is the
HTTPException at main.py line 97, `modelNotReady` the one at line 146
(spec: ModelNotReadyError), `loadFailed` the one at line 161,
`insufficientData` the spec's InsufficientDataError raised inside
`CameraCalibrator.calibrate`, `corruptModel` the spec's CorruptModelError
from `load_results`, `ioFail` a persistence failure of `save_results`,
`processFailed` a failure constructing or running the `ImageProcessor`,
and `scaleIndeterminate` the spec's ScaleIndeterminateError. -/
inductive Err where
  | noCalibImages
  | insufficientData
  | corruptModel
  | ioFail
  | modelNotReady
  | loadFailed
  | processFailed
  | scaleIndeterminate
deriving DecidableEq, Repr

/-- The global dictionary `calibration_params` of main.py lines 27-33:
optional model fields plus the `is_calibrated` flag. -/
structure CalibrationParams where
  cameraMatrix : Option Mat
  distCoeffs : Option (List Int)
  newCameraMatrix : Option Mat
  roi : Option Roi
  is_calibrated : Bool
deriving DecidableEq, Repr

/-- The initial value of `calibration_params` (main.py lines 27-33): every
field `None`, `is_calibrated` false. -/
def initParams : CalibrationParams :=
  ⟨none, none, none, none, false⟩

/-- The fields of the intrinsic model that `save_results` persists
(spec section 4.1: cameraMatrix, distCoeffs, newCameraMatrix, roi,
imageSize). -/
structure SavedModel where
  cameraMatrix : Mat
  distCoeffs : List Int
  newCameraMatrix : Mat
  roi : Roi
  imageSize : Nat × Nat
deriving DecidableEq, Repr

/-- A persisted key-value entry of the calibration file: the structured
(key-value tree) serialization format of the spec, tagged by payload
shape so that malformed files are representable. -/
inductive KVVal where
  | mat : Mat → KVVal
  | vec : List Int → KVVal
  | rect : Roi → KVVal
  | size : Nat × Nat → KVVal
deriving DecidableEq, Repr

/-- The contents of `calib_results/camera_calib_params.xml`, as a key-value
tree. -/
abbrev KVFile := List (String × KVVal)

/-- Modelled from the spec: `CameraCalibrator.save_results` of the absent
`calibration.py` (spec section 4.1: serializes cameraMatrix, distCoeffs,
newCameraMatrix, roi, imageSize to a durable key-value tree). -/
def save_results (m : SavedModel) : KVFile :=
  [("cameraMatrix", KVVal.mat m.cameraMatrix),
   ("distCoeffs", KVVal.vec m.distCoeffs),
   ("newCameraMatrix", KVVal.mat m.newCameraMatrix),
   ("roi", KVVal.rect m.roi),
   ("imageSize", KVVal.size m.imageSize)]

/-- Modelled from the spec: `CameraCalibrator.load_results` of the absent
`calibration.py` (spec section 4.1: deserializes the same fields; fails
with CorruptModelError if any required field is absent or malformed). -/
def load_results (f : KVFile) : Except Err SavedModel :=
  match f.lookup "cameraMatrix", f.lookup "distCoeffs",
        f.lookup "newCameraMatrix", f.lookup "roi", f.lookup "imageSize" with
  | some (KVVal.mat cm), some (KVVal.vec dc), some (KVVal.mat ncm),
    some (KVVal.rect r), some (KVVal.size sz) =>
      Except.ok ⟨cm, dc, ncm, r, sz⟩
  | _, _, _, _, _ => Except.error Err.corruptModel

/-- One calibration image as seen by `calibrate`: either the chessboard
detection (with sub-pixel refinement already folded in) succeeded, yielding
an ordered corner observation, or the image is rejected entirely
(spec: partial detections are not usable). -/
structure CalibImage where
  detected : Option Obs
deriving DecidableEq, Repr

/-- The output of the joint nonlinear calibration solve (the external
solver collaborator of spec section 6): intrinsics, derived optimal new
camera matrix and roi, the image size the model was fit on, and the mean
reprojection error.  The solve itself is numeric and is abstracted as a
function parameter. -/
structure SolveOut where
  cameraMatrix : Mat
  distCoeffs : List Int
  newCameraMatrix : Mat
  roi : Roi
  imageSize : Nat × Nat
  mean_reproj_error : Int
deriving DecidableEq, Repr

/-- The result dictionary returned by `CameraCalibrator.calibrate`
(consumed by main.py lines 101-125): the model fields plus the quality
report counts. -/
structure CalibResults where
  cameraMatrix : Mat
  distCoeffs : List Int
  newCameraMatrix : Mat
  roi : Roi
  imageSize : Nat × Nat
  mean_reproj_error : Int
  valid_images_count : Nat
  total_images_count : Nat
deriving DecidableEq, Repr

/-- Modelled from the spec: `CameraCalibrator.calibrate` of the absent
`calibration.py` (spec section 4.1).  Each image either yields a full
corner observation or is skipped; skipped images count toward
totalImageCount but not validImageCount.  If no image yields a detection
the calibration fails with InsufficientDataError and no model is produced;
otherwise the joint solve (abstracted as `solver`) runs over all accepted
observations. -/
def calibrate (solver : List Obs → SolveOut) (imgs : List CalibImage) :
    Except Err CalibResults :=
  let valids := imgs.filterMap CalibImage.detected
  if valids.length = 0 then
    Except.error Err.insufficientData
  else
    let out := solver valids
    Except.ok ⟨out.cameraMatrix, out.distCoeffs, out.newCameraMatrix,
               out.roi, out.imageSize, out.mean_reproj_error,
               valids.length, imgs.length⟩

/-- The whole mutable state of the running service: the global
`calibration_params` dictionary and the persisted calibration file
(`calib_results/camera_calib_params.xml`), `none` when absent on disk. -/
structure ServerState where
  params : CalibrationParams
  calibFile : Option KVFile
deriving DecidableEq, Repr

/-- The JSON response body of a successful calibration (main.py lines
115-127). -/
structure CalibResponse where
  valid_images_count : Nat
  total_images_count : Nat
  mean_reproj_error : Int
  camera_matrix : Mat
  dist_coeffs : List Int
deriving DecidableEq, Repr

/-- The `calibration_params` dictionary after the update of main.py lines
107-113 (and likewise lines 153-159): every model field set from the new
model and `is_calibrated = True`. -/
def fullParams (m : SavedModel) : CalibrationParams :=
  ⟨some m.cameraMatrix, some m.distCoeffs, some m.newCameraMatrix,
   some m.roi, true⟩

/-- The `/start_calibration` endpoint (main.py lines 81-131) as a state
transformer.  `saveFails` models an IO failure of `save_results`
(line 104).  On any error the response is the error and the state is
returned unchanged; on success the file is rewritten with the new model
and the global dictionary is updated (lines 104-113). -/
def start_calibration (solver : List Obs → SolveOut) (saveFails : Bool)
    (imgs : List CalibImage) (st : ServerState) :
    Except Err CalibResponse × ServerState :=
  if imgs.length = 0 then
    (Except.error Err.noCalibImages, st)
  else
    match calibrate solver imgs with
    | Except.error e => (Except.error e, st)
    | Except.ok results =>
      if saveFails then
        (Except.error Err.ioFail, st)
      else
        let saved : SavedModel :=
          ⟨results.cameraMatrix, results.distCoeffs,
           results.newCameraMatrix, results.roi, results.imageSize⟩
        (Except.ok ⟨results.valid_images_count, results.total_images_count,
                    results.mean_reproj_error, results.cameraMatrix,
                    results.distCoeffs⟩,
         ⟨fullParams saved, some (save_results saved)⟩)

/-- A reference object identified in the undistorted image: its known
physical size and its measured pixel length (spec section 4.2 step 3). -/
structure RefObject where
  physLen : ℚ
  pixLen : ℚ
deriving DecidableEq, Repr

/-- An incoming measurement image, abstracted to what the measurement
pipeline extracts from it: the identified reference object (if any) and
the pixel dimensions of the detected rectangular candidates. -/
structure Img where
  reference : Option RefObject
  pixRects : List (ℚ × ℚ)
deriving DecidableEq, Repr

/-- The result dictionary of `ImageProcessor.process_image` (consumed by
main.py lines 179-206): the undistorted result image (abstracted as the
pair of the model applied and the input frame), the derived scale, and
the detected rectangles with physical dimensions. -/
structure ProcResult where
  result_image : SavedModel × Img
  scale : ℚ
  detected_rectangles : List (ℚ × ℚ)
deriving DecidableEq, Repr

/-- Modelled from the spec: `ImageProcessor.process_image` of the absent
`image_process.py` (spec section 4.2).  Undistorts through the loaded
model, detects rectangles, then establishes scale from the designated
reference object; if no reference is identifiable it fails with
ScaleIndeterminateError rather than defaulting to pixel units; otherwise
the scale is applied to every detected rectangle. -/
def processor_process_image (m : SavedModel) (img : Img) :
    Except Err ProcResult :=
  match img.reference with
  | none => Except.error Err.scaleIndeterminate
  | some ref =>
    let scale := ref.physLen / ref.pixLen
    Except.ok ⟨(m, img), scale,
               img.pixRects.map (fun wh => (scale * wh.1, scale * wh.2))⟩

/-- The calibration check at the top of `process_image` (main.py lines
141-161): if the global dictionary is already calibrated the state passes
through unchanged; otherwise the persisted file is required (error
`modelNotReady` when absent, line 146), loaded (error `loadFailed` when
corrupt, line 161), and on success the global dictionary is updated from
the loaded model (lines 153-159). -/
def ensureCalibrated (st : ServerState) : Except Err ServerState :=
  if st.params.is_calibrated then
    Except.ok st
  else
    match st.calibFile with
    | none => Except.error Err.modelNotReady
    | some f =>
      match load_results f with
      | Except.error _ => Except.error Err.loadFailed
      | Except.ok m => Except.ok ⟨fullParams m, st.calibFile⟩

/-- The processing step of `process_image` (main.py lines 178-179): the
`ImageProcessor` is constructed from the persisted file path
`calib_results/camera_calib_params.xml` — not from the in-memory
dictionary — so the model it applies is re-read from disk; constructing
it with a missing or unreadable file fails. -/
def runProcessor (img : Img) (file : Option KVFile) : Except Err ProcResult :=
  match file with
  | none => Except.error Err.processFailed
  | some f =>
    match load_results f with
    | Except.error _ => Except.error Err.processFailed
    | Except.ok m => processor_process_image m img

/-- The `/process_image` endpoint (main.py lines 138-213) as a state
transformer: first the calibration check (lines 141-161), whose
side effect on the global dictionary persists for the rest of the request
even if processing later fails, then the processor run (lines 178-179)
against the persisted file. -/
def process_image (img : Img) (st : ServerState) :
    Except Err ProcResult × ServerState :=
  match ensureCalibrated st with
  | Except.error e => (Except.error e, st)
  | Except.ok st' =>
    match runProcessor img st'.calibFile with
    | Except.error e => (Except.error e, st')
    | Except.ok r => (Except.ok r, st')

/-- The model invariant of spec section 3: `newCameraMatrix`, `roi` and
`is_calibrated = true` are present only together, and `cameraMatrix` and
`distCoeffs` are both present or both absent. -/
def paramsInvariant (p : CalibrationParams) : Prop :=
  ((p.newCameraMatrix.isSome = true ∧ p.roi.isSome = true ∧
    p.is_calibrated = true) ∨
   (p.newCameraMatrix = none ∧ p.roi = none ∧ p.is_calibrated = false)) ∧
  p.cameraMatrix.isSome = p.distCoeffs.isSome

/-- The states the service can reach: the start state (fresh global
dictionary, arbitrary pre-existing disk file), closed under the two
state-mutating endpoints with arbitrary request inputs. -/
inductive Reachable : ServerState → Prop where
  | init (f : Option KVFile) : Reachable ⟨initParams, f⟩
  | calib (solver : List Obs → SolveOut) (saveFails : Bool)
      (imgs : List CalibImage) (st : ServerState) :
      Reachable st → Reachable (start_calibration solver saveFails imgs st).2
  | proc (img : Img) (st : ServerState) :
      Reachable st → Reachable (process_image img st).2

/-! Concrete inputs used by witnesses and counterexamples. -/

/-- A concrete 3×3 camera matrix. -/
def mat0 : Mat := [[600, 0, 320], [0, 600, 240], [0, 0, 1]]

/-- A concrete calibrated model. -/
def model0 : SavedModel := ⟨mat0, [0, 0, 0, 0, 0], mat0, (8, 8, 624, 464), (640, 480)⟩

/-- A concrete solver output. -/
def out0 : SolveOut := ⟨mat0, [0, 0, 0, 0, 0], mat0, (8, 8, 624, 464), (640, 480), 0⟩

/-- A concrete (constant) calibration solver. -/
def solver0 : List Obs → SolveOut := fun _ => out0

/-- Fresh server state: uncalibrated dictionary, no persisted file. -/
def st0 : ServerState := ⟨initParams, none⟩

/-- Server state with an uncalibrated dictionary but a valid persisted
calibration file on disk. -/
def stFile0 : ServerState := ⟨initParams, some (save_results model0)⟩

/-- Server state with a calibrated dictionary and matching persisted file. -/
def stCal : ServerState := ⟨fullParams model0, some (save_results model0)⟩

/-- A measurement image with an identified reference object of physical
size 35 and pixel length 70, and one detected 10×20-pixel rectangle. -/
def imgRef0 : Img := ⟨some ⟨35, 70⟩, [(10, 20)]⟩

/-- A measurement image in which no reference object is identifiable. -/
def imgNoRef : Img := ⟨none, [(10, 20)]⟩

/-- The measurement result produced for `imgRef0` under `model0`. -/
def res0 : ProcResult := ⟨(model0, imgRef0), 35/70, [(35/70 * 10, 35/70 * 20)]⟩

/-- A one-image calibration batch whose single image detects the pattern. -/
def imgs1 : List CalibImage := [⟨some [(0, 0)]⟩]

/-- The calibration results for `imgs1` under `solver0`. -/
def r0 : CalibResults :=
  ⟨mat0, [0, 0, 0, 0, 0], mat0, (8, 8, 624, 464), (640, 480), 0, 1, 1⟩

/-! Theorems settling the claims. -/

/-- Counterexample to claim C1 as stated: a measurement request arriving
while the in-memory model is uncalibrated (`is_calibrated = false`) does
not fail with ModelNotReadyError when a loadable persisted params file
exists — `process_image` loads the file and returns a full successful
result. -/
theorem claim_C1_counterexample :
    stFile0.params.is_calibrated = false ∧
    (process_image imgRef0 stFile0).1 = Except.ok res0 := ⟨rfl, rfl⟩

/-- Claim C1 (amended): a measurement request made while the in-memory
model is uncalibrated fails with ModelNotReadyError — returning no partial
result and leaving the state untouched — exactly when no persisted params
file exists; when a loadable persisted file exists the request instead
loads it and proceeds. -/
theorem claim_C1 (img : Img) (st : ServerState)
    (h1 : st.params.is_calibrated = false) (h2 : st.calibFile = none) :
    process_image img st = (Except.error Err.modelNotReady, st) := by
  simp [process_image, ensureCalibrated, h1, h2]

/-- Witness for claim C1 at a concrete uncalibrated, file-less state. -/
theorem claim_C1_witness :
    process_image imgRef0 st0 = (Except.error Err.modelNotReady, st0) :=
  claim_C1 imgRef0 st0 rfl rfl

/-- Claim C2: a calibration batch in which no image yields a valid
chessboard detection fails with InsufficientDataError, and the endpoint
leaves the state unchanged (no model is produced). -/
theorem claim_C2 (solver : List Obs → SolveOut) (saveFails : Bool)
    (imgs : List CalibImage) (st : ServerState)
    (hne : imgs ≠ []) (hall : ∀ i ∈ imgs, i.detected = none) :
    calibrate solver imgs = Except.error Err.insufficientData ∧
    start_calibration solver saveFails imgs st =
      (Except.error Err.insufficientData, st) := by
  have hfm : imgs.filterMap CalibImage.detected = [] :=
    List.filterMap_eq_nil_iff.mpr hall
  have hc : calibrate solver imgs = Except.error Err.insufficientData := by
    simp [calibrate, hfm]
  have hlen : ¬imgs.length = 0 := by
    simpa [List.length_eq_zero] using hne
  exact ⟨hc, by simp [start_calibration, hlen, hc]⟩

/-- Witness for claim C2: a batch of 10 images, none of which detects the
pattern, yields InsufficientDataError and no model. -/
theorem claim_C2_witness :
    calibrate solver0 (List.replicate 10 ⟨none⟩) =
      Except.error Err.insufficientData ∧
    start_calibration solver0 false (List.replicate 10 ⟨none⟩) st0 =
      (Except.error Err.insufficientData, st0) :=
  claim_C2 solver0 false (List.replicate 10 ⟨none⟩) st0 (by decide) (by decide)

/-- Claim C3: every calibration request that fails leaves the shared
state (the global dictionary and the persisted file) exactly as it was
before the request. -/
theorem claim_C3 (solver : List Obs → SolveOut) (saveFails : Bool)
    (imgs : List CalibImage) (st : ServerState) (e : Err)
    (h : (start_calibration solver saveFails imgs st).1 = Except.error e) :
    (start_calibration solver saveFails imgs st).2 = st := by
  by_cases hl : imgs.length = 0
  · simp [start_calibration, hl]
  · cases hc : calibrate solver imgs with
    | error e' => simp [start_calibration, hl, hc]
    | ok r =>
      cases hsf : saveFails with
      | true => simp [start_calibration, hl, hc, hsf]
      | false =>
        exfalso
        simp [start_calibration, hl, hc, hsf] at h

/-- Witness for claim C3 at a concrete failing request (empty batch). -/
theorem claim_C3_witness :
    (start_calibration solver0 false [] st0).2 = st0 :=
  claim_C3 solver0 false [] st0 Err.noCalibImages rfl

/-- The invariant holds of the initial global dictionary. -/
lemma paramsInvariant_initParams : paramsInvariant initParams :=
  ⟨Or.inr ⟨rfl, rfl, rfl⟩, rfl⟩

/-- The invariant holds of a fully populated dictionary. -/
lemma paramsInvariant_fullParams (m : SavedModel) :
    paramsInvariant (fullParams m) :=
  ⟨Or.inl ⟨rfl, rfl, rfl⟩, rfl⟩

/-- The calibration endpoint preserves the model invariant. -/
lemma paramsInvariant_start_calibration (solver : List Obs → SolveOut)
    (saveFails : Bool) (imgs : List CalibImage) (st : ServerState)
    (h : paramsInvariant st.params) :
    paramsInvariant (start_calibration solver saveFails imgs st).2.params := by
  by_cases hl : imgs.length = 0
  · simpa [start_calibration, hl] using h
  · cases hc : calibrate solver imgs with
    | error e => simpa [start_calibration, hl, hc] using h
    | ok r =>
      cases hsf : saveFails with
      | true => simpa [start_calibration, hl, hc, hsf] using h
      | false =>
        simpa [start_calibration, hl, hc, hsf] using
          paramsInvariant_fullParams
            ⟨r.cameraMatrix, r.distCoeffs, r.newCameraMatrix, r.roi, r.imageSize⟩

/-- The calibration check at the top of `process_image` yields a state
satisfying the model invariant. -/
lemma paramsInvariant_ensureCalibrated (st st' : ServerState)
    (h : paramsInvariant st.params)
    (he : ensureCalibrated st = Except.ok st') :
    paramsInvariant st'.params := by
  unfold ensureCalibrated at he
  split at he
  · simp only [Except.ok.injEq] at he
    subst he
    exact h
  · split at he
    · exact absurd he (by simp)
    · split at he
      · exact absurd he (by simp)
      · simp only [Except.ok.injEq] at he
        subst he
        exact paramsInvariant_fullParams _

/-- The measurement endpoint preserves the model invariant. -/
lemma paramsInvariant_process_image (img : Img) (st : ServerState)
    (h : paramsInvariant st.params) :
    paramsInvariant (process_image img st).2.params := by
  cases he : ensureCalibrated st with
  | error e => simpa [process_image, he] using h
  | ok st' =>
    have h' := paramsInvariant_ensureCalibrated st st' h he
    cases hr : runProcessor img st'.calibFile with
    | error e => simpa [process_image, he, hr] using h'
    | ok r => simpa [process_image, he, hr] using h'

/-- Claim C4: in every reachable state of the service, the shared model
satisfies the invariant — `newCameraMatrix`, `roi` and
`is_calibrated = true` are present only together, and `cameraMatrix` and
`distCoeffs` are both present or both absent; initialisation, calibration
and the measurement path's model reload all preserve it. -/
theorem claim_C4 (st : ServerState) (h : Reachable st) :
    paramsInvariant st.params := by
  induction h with
  | init f => exact paramsInvariant_initParams
  | calib solver saveFails imgs st h ih =>
      exact paramsInvariant_start_calibration solver saveFails imgs st ih
  | proc img st h ih => exact paramsInvariant_process_image img st ih

/-- Witness for claim C4 at the concrete initial state. -/
theorem claim_C4_witness :
    paramsInvariant (ServerState.mk initParams none).params :=
  claim_C4 ⟨initParams, none⟩ (Reachable.init none)

/-- Claim C5: whenever calibration succeeds, the reported quality counts
satisfy validImageCount ≤ totalImageCount. -/
theorem claim_C5 (solver : List Obs → SolveOut) (imgs : List CalibImage)
    (r : CalibResults) (h : calibrate solver imgs = Except.ok r) :
    r.valid_images_count ≤ r.total_images_count := by
  unfold calibrate at h
  by_cases hl : (imgs.filterMap CalibImage.detected).length = 0
  · simp [hl] at h
  · simp [hl] at h
    rw [← h]
    exact List.length_filterMap_le CalibImage.detected imgs

/-- Witness for claim C5 at a concrete successful calibration. -/
theorem claim_C5_witness : r0.valid_images_count ≤ r0.total_images_count :=
  claim_C5 solver0 imgs1 r0 rfl

/-- Claim C6: saving a model and loading the saved result returns the
model unchanged — the round-trip preserves cameraMatrix, distCoeffs,
newCameraMatrix and roi (and imageSize). -/
theorem claim_C6 (m : SavedModel) :
    load_results (save_results m) = Except.ok m := rfl

/-- Claim C8: for a measurement image in which no reference object of
known physical size is identifiable, the processor fails with
ScaleIndeterminateError under every model, and the measurement endpoint
never returns a successful result from any state. -/
theorem claim_C8 (img : Img) (h : img.reference = none) :
    (∀ m, processor_process_image m img =
      Except.error Err.scaleIndeterminate) ∧
    (∀ st r, (process_image img st).1 ≠ Except.ok r) := by
  have hp : ∀ m, processor_process_image m img =
      Except.error Err.scaleIndeterminate := by
    intro m
    simp [processor_process_image, h]
  refine ⟨hp, ?_⟩
  intro st r hok
  unfold process_image at hok
  cases he : ensureCalibrated st with
  | error e => rw [he] at hok; simp at hok
  | ok st' =>
    rw [he] at hok
    cases hf : st'.calibFile with
    | none => simp [runProcessor, hf] at hok
    | some f =>
      cases hl : load_results f with
      | error e => simp [runProcessor, hf, hl] at hok
      | ok m => simp [runProcessor, hf, hl, hp] at hok

/-- Witness for claim C8 at a concrete reference-free image. -/
theorem claim_C8_witness :
    processor_process_image model0 imgNoRef =
      Except.error Err.scaleIndeterminate :=
  (claim_C8 imgNoRef rfl).1 model0

/-- On a calibrated state the measurement response is exactly the
processor run against the persisted file. -/
lemma process_image_fst_of_calibrated (img : Img) (st : ServerState)
    (h : st.params.is_calibrated = true) :
    (process_image img st).1 = runProcessor img st.calibFile := by
  have he : ensureCalibrated st = Except.ok st := by
    simp [ensureCalibrated, h]
  cases hr : runProcessor img st.calibFile with
  | error e => simp [process_image, he, hr]
  | ok r => simp [process_image, he, hr]

/-- Claim C9: a measurement request that reaches the processing step
applies the model re-read from the persisted params file, not the
in-memory dictionary: the response equals `runProcessor` on the persisted
file alone, and is therefore invariant under replacing the in-memory
model fields by any other calibrated dictionary. -/
theorem claim_C9 (img : Img) (st : ServerState)
    (h : st.params.is_calibrated = true) :
    (process_image img st).1 = runProcessor img st.calibFile ∧
    ∀ p : CalibrationParams, p.is_calibrated = true →
      (process_image img ⟨p, st.calibFile⟩).1 = (process_image img st).1 := by
  refine ⟨process_image_fst_of_calibrated img st h, fun p hp => ?_⟩
  rw [process_image_fst_of_calibrated img ⟨p, st.calibFile⟩ hp,
      process_image_fst_of_calibrated img st h]

/-- Witness for claim C9 at a concrete calibrated state. -/
theorem claim_C9_witness :
    (process_image imgRef0 stCal).1 = runProcessor imgRef0 stCal.calibFile :=
  (claim_C9 imgRef0 stCal rfl).1

/-- Claim C10: a measurement request arriving while the in-memory model
is uncalibrated but a loadable persisted params file exists mutates the
shared dictionary as a side effect — the post-state carries the loaded
model's four fields with `is_calibrated = true` — and this holds for every
image, i.e. regardless of whether the subsequent processing succeeds. -/
theorem claim_C10 (img : Img) (st : ServerState) (f : KVFile)
    (m : SavedModel) (h1 : st.params.is_calibrated = false)
    (h2 : st.calibFile = some f) (h3 : load_results f = Except.ok m) :
    (process_image img st).2 = ⟨fullParams m, st.calibFile⟩ := by
  have he : ensureCalibrated st =
      Except.ok ⟨fullParams m, st.calibFile⟩ := by
    simp [ensureCalibrated, h1, h2, h3]
  cases hr : runProcessor img st.calibFile with
  | error e => simp [process_image, he, hr]
  | ok r => simp [process_image, he, hr]

/-- Witness for claim C10: a concrete uncalibrated state with a persisted
file, measured with an image whose processing fails, still ends with the
dictionary fully populated from the persisted model. -/
theorem claim_C10_witness :
    (process_image imgNoRef stFile0).2 = ⟨fullParams model0, stFile0.calibFile⟩ :=
  claim_C10 imgNoRef stFile0 (save_results model0) model0 rfl rfl rfl
